import Mathlib

/-!
Shallow embedding of the AI Interview Coach IVR core, translated from the
repository source:

* `src/database/models/Session.js` — the Call Session record and its
  instance methods (`addQuestion`, `addResponse`, `completeSession`).
* `src/routes/webhooks.js` — the telephony webhook handlers:
  `router.post('/continue-interview')`, `processTranscribedResponse`,
  `generateNextQuestion`, `endMockInterview`, `router.post('/response-timeout')`.
* `src/services/murfaiService.js` — the synthesis client
  (`generateAudioViaWebSocket`, `textToSpeech`, `generateCacheKey`,
  `getCachedAudio`, `saveAudioFile`, `batchTextToSpeech`).
* `src/services/twilioService.js` — the prompt renderer
  (`generateTwiMLResponse`, `addFallbackTTS`, `generateRecordingTwiML`,
  `generateHangupTwiML`).
* `src/routes/audio.js` — the audio artifact retrieval endpoint.

External collaborators (OpenAI question generation and answer analysis, the
Murf backend's frame stream, the filesystem) are passed in as explicit
arguments, so every definition is an executable function of its inputs.
-/

namespace IVR

/-! ## Data model (Session.js) -/

/-- An interview question as stored in the session's `questions` JSON array
(`Session.prototype.addQuestion` keeps id, text, type, category). -/
structure Question where
  id : String
  text : String
  category : String
deriving DecidableEq, Repr

/-- An answer record as stored in the session's `responses` JSON array
(`Session.prototype.addResponse` keeps questionId, text, transcription, ...). -/
structure ResponseRec where
  questionId : String
  text : String
deriving DecidableEq, Repr

/-- The per-answer score object returned by `openaiService.analyzeResponse`
(`{content, structure, communication, industryKnowledge, overall}`, all 0-100).
The session's `scores` JSON column holds an object with the same keys. -/
structure Scores where
  content : Nat
  structureScore : Nat
  communication : Nat
  industryKnowledge : Nat
  overall : Nat
deriving DecidableEq, Repr

/-- Session lifecycle status (`DataTypes.ENUM('active','completed','abandoned','failed')`). -/
inductive SessionStatus where
  | active
  | completed
  | abandoned
  | failed
deriving DecidableEq, Repr

/-- Session kind (`DataTypes.ENUM('mock_interview','coaching','assessment','practice')`). -/
inductive SessionType where
  | mock_interview
  | coaching
  | assessment
  | practice
deriving DecidableEq, Repr

/-- The Call Session record (the fields of the `Session` model that the
webhook handlers read and write). -/
structure SessionState where
  sessionType : SessionType
  status : SessionStatus
  questions : List Question
  responses : List ResponseRec
  scores : Scores
deriving DecidableEq, Repr

/-- A fresh session as created by `Session.create({..., status: 'active'})`:
empty question/response arrays and the all-zero default `scores`. -/
def newSession (kind : SessionType) : SessionState :=
  { sessionType := kind
    status := .active
    questions := []
    responses := []
    scores := ⟨0, 0, 0, 0, 0⟩ }

/-- Model of `Session.prototype.addQuestion`: push onto the `questions` array and save. -/
def addQuestion (s : SessionState) (q : Question) : SessionState :=
  { s with questions := s.questions ++ [q] }

/-- Model of `Session.prototype.addResponse`: push onto the `responses` array and save. -/
def addResponse (s : SessionState) (r : ResponseRec) : SessionState :=
  { s with responses := s.responses ++ [r] }

/-- Model of `Session.prototype.completeSession`: set status to `completed`. -/
def completeSession (s : SessionState) : SessionState :=
  { s with status := .completed }

/-! ## Webhook handlers (webhooks.js) -/

/-- The object spread `{ ...session.scores, ...analysis.scores }` used by
`processTranscribedResponse`: `analyzeResponse` always returns all five score
keys, so the spread overwrites every score field with the latest analysis. -/
def mergeScores (_old latest : Scores) : Scores :=
  latest

/-- Model of `processTranscribedResponse(session, user, params)` from webhooks.js:
if `responses.length >= questions.length` the event is skipped
("More responses than questions - skipping processing"); otherwise the
transcript is recorded against `questions[responses.length]` and the
session's scores are merged with the analysis result.  The external
`openaiService.analyzeResponse` outcome is the `analysis` argument. -/
def processTranscribedResponse (s : SessionState) (transcript : String)
    (analysis : Scores) : SessionState :=
  if s.responses.length ≥ s.questions.length then
    s
  else
    match s.questions.get? s.responses.length with
    | none => s
    | some q =>
        { s with
          responses := s.responses ++ [⟨q.id, transcript⟩]
          scores := mergeScores s.scores analysis }

/-- Model of `generateNextQuestion(session, user)` from webhooks.js.  The gate is
`if (questions.length >= 5) return null` — it counts *questions*, not
responses.  The external OpenAI call's outcome is the `generated` argument
(`none` models an empty result list or a thrown error, both of which make
the function return null). -/
def generateNextQuestion (s : SessionState) (generated : Option Question) :
    Option Question × SessionState :=
  if 5 ≤ s.questions.length then
    (none, s)
  else
    match generated with
    | some q => (some q, addQuestion s q)
    | none => (none, s)

/-- Model of `endMockInterview(session, user)` from webhooks.js: complete the session
and read the final score straight from `session.scores?.overall || 0`
(no averaging happens here or anywhere upstream). -/
def endMockInterview (s : SessionState) : SessionState × Nat :=
  (completeSession s, s.scores.overall)

/-- Which telephony render the handler requests from twilioService, with the
message text it passes. -/
inductive HandlerResponse where
  | recording (message : String) (action : String) (timeoutAction : String)
  | hangupMsg (message : String)
  | holdGather (message : String) (action : String)
deriving DecidableEq, Repr

/-- The hangup text of the `/continue-interview` completion branch. -/
def completionMessage : String :=
  "Thank you for completing the mock interview. Your session has been analyzed and feedback will be provided. Have a great day!"

/-- The pre-authored fallback question spoken when the next-question race
times out or generation yields nothing. -/
def fallbackQuestionMessage : String :=
  "Here\x27s your next question: Tell me about a time when you demonstrated leadership. Please provide your response."

/-- The message spoken for a freshly generated question. -/
def nextQuestionMessage (q : Question) : String :=
  "Here\x27s your next question: " ++ q.text ++ ". Please provide your response."

def responseAction : String := "/webhook/response"

def responseTimeoutAction : String := "/webhook/response-timeout"

/-- Result of one `/continue-interview` request: the render it answers with,
the session as updated synchronously, and whether a background
`generateNextQuestion` task was spawned after answering. -/
structure ContinueResult where
  response : HandlerResponse
  session : SessionState
  backgroundGenerate : Bool
deriving DecidableEq, Repr

/-- Model of `router.post('/continue-interview')` from webhooks.js.  It ends the
session when `questions.length >= 5`; otherwise it races
`generateNextQuestion` against an 8-second timer (`Promise.race`).
`timedOut = true` models the timer winning; `generated` is the OpenAI
outcome inside `generateNextQuestion`.  When the race yields no question the
fallback question is spoken and the real generation keeps running in the
background (its later result never touches this response). -/
def continueInterview (s : SessionState) (timedOut : Bool)
    (generated : Option Question) : ContinueResult :=
  if 5 ≤ s.questions.length then
    { response := .hangupMsg completionMessage
      session := (endMockInterview s).1
      backgroundGenerate := false }
  else
    let raced : Option Question × SessionState :=
      if timedOut then (none, s) else generateNextQuestion s generated
    match raced with
    | (some q, s') =>
        { response := .recording (nextQuestionMessage q) responseAction responseTimeoutAction
          session := s'
          backgroundGenerate := false }
    | (none, _) =>
        { response := .recording fallbackQuestionMessage responseAction responseTimeoutAction
          session := s
          backgroundGenerate := true }

/-- Model of `router.post('/response-timeout')` from webhooks.js: if there is still an
unanswered question, re-ask `questions[responses.length]`; otherwise call
`endMockInterview` and hang up.  Neither branch touches the question or
response arrays. -/
def responseTimeout (s : SessionState) : HandlerResponse × SessionState :=
  if s.responses.length < s.questions.length then
    match s.questions.get? s.responses.length with
    | some q =>
        (.recording ("No problem, let\x27s continue. " ++ nextQuestionMessage q)
          responseAction responseTimeoutAction, s)
    | none => (.recording fallbackQuestionMessage responseAction responseTimeoutAction, s)
  else
    (.hangupMsg "Thank you for your time. Your mock interview session has ended. Have a great day!",
      (endMockInterview s).1)

/-- The three session transitions the invariant claim ranges over: a question
being added, a transcribed answer event being processed, and a
response-timeout event. -/
inductive SessionStep where
  | addQ (q : Question)
  | answer (transcript : String) (analysis : Scores)
  | timeoutEvent
deriving Repr

/-- One transition of the Call Session state machine. -/
def applyStep (s : SessionState) : SessionStep → SessionState
  | .addQ q => addQuestion s q
  | .answer t a => processTranscribedResponse s t a
  | .timeoutEvent => (responseTimeout s).2

/-! ## C2 -/

/-- C2: for every Call Session, `len(answers) <= len(questions)` holds after
every transition (adding a question, processing an answer, handling a
response timeout), and an answer event arriving when answers already equal
questions does not add an answer. -/
theorem c2_answers_le_questions_invariant (s : SessionState) (step : SessionStep)
    (hinv : s.responses.length ≤ s.questions.length) :
    (applyStep s step).responses.length ≤ (applyStep s step).questions.length ∧
    (∀ t a, s.responses.length = s.questions.length →
      applyStep s (.answer t a) = s) := by
  constructor
  · cases step with
    | addQ q =>
        simp only [applyStep, addQuestion, List.length_append, List.length_cons]
        omega
    | answer t a =>
        simp only [applyStep, processTranscribedResponse]
        by_cases h : s.responses.length ≥ s.questions.length
        · simp [h, hinv]
        · simp only [if_neg h]
          push_neg at h
          cases hq : s.questions.get? s.responses.length with
          | none => simpa using hinv
          | some q =>
              simp only [List.length_append, List.length_cons, List.length_nil]
              omega
    | timeoutEvent =>
        simp only [applyStep, responseTimeout]
        by_cases h : s.responses.length < s.questions.length
        · simp only [if_pos h]
          cases hq : s.questions.get? s.responses.length with
          | none => simpa using hinv
          | some q => simpa using hinv
        · simp only [if_neg h, endMockInterview, completeSession]
          exact hinv
  · intro t a heq
    simp [applyStep, processTranscribedResponse, heq]

/-- Witness for C2 at a concrete session: two questions, one answer, then an
answer transition; and the no-over-answer conclusion at a saturated session. -/
theorem c2_witness :
    (applyStep
        { sessionType := .mock_interview, status := .active
          questions := [⟨"q1", "Tell me about yourself", "behavioral"⟩,
                        ⟨"q2", "Why this role", "behavioral"⟩]
          responses := [⟨"q1", "I am an engineer"⟩]
          scores := ⟨0, 0, 0, 0, 0⟩ }
        (.answer "because" ⟨70, 70, 70, 70, 70⟩)).responses.length ≤
      (applyStep
        { sessionType := .mock_interview, status := .active
          questions := [⟨"q1", "Tell me about yourself", "behavioral"⟩,
                        ⟨"q2", "Why this role", "behavioral"⟩]
          responses := [⟨"q1", "I am an engineer"⟩]
          scores := ⟨0, 0, 0, 0, 0⟩ }
        (.answer "because" ⟨70, 70, 70, 70, 70⟩)).questions.length ∧
    applyStep
        { sessionType := .mock_interview, status := .active
          questions := [⟨"q1", "Tell me about yourself", "behavioral"⟩]
          responses := [⟨"q1", "I am an engineer"⟩]
          scores := ⟨0, 0, 0, 0, 0⟩ }
        (.answer "extra" ⟨10, 10, 10, 10, 10⟩) =
      { sessionType := .mock_interview, status := .active
        questions := [⟨"q1", "Tell me about yourself", "behavioral"⟩]
        responses := [⟨"q1", "I am an engineer"⟩]
        scores := ⟨0, 0, 0, 0, 0⟩ } := by
  refine ⟨(c2_answers_le_questions_invariant _ (.answer "because" ⟨70, 70, 70, 70, 70⟩)
      (by decide)).1, ?_⟩
  exact (c2_answers_le_questions_invariant
      { sessionType := .mock_interview, status := .active
        questions := [⟨"q1", "Tell me about yourself", "behavioral"⟩]
        responses := [⟨"q1", "I am an engineer"⟩]
        scores := ⟨0, 0, 0, 0, 0⟩ }
      .timeoutEvent (by decide)).2 "extra" ⟨10, 10, 10, 10, 10⟩ (by decide)

/-! ## C1 -/

/-- A concrete question, used to build sample sessions. -/
def sampleQuestion (i : Nat) : Question :=
  ⟨"q" ++ toString i, "Question " ++ toString i, "behavioral"⟩

/-- A session that has been asked 5 questions but has received only 4
answers (e.g. the background analysis of the fifth answer has not landed
yet, or the fifth recording was never transcribed). -/
def staleSession : SessionState :=
  { sessionType := .mock_interview
    status := .active
    questions := [sampleQuestion 1, sampleQuestion 2, sampleQuestion 3,
                  sampleQuestion 4, sampleQuestion 5]
    responses := [⟨"q1", "a1"⟩, ⟨"q2", "a2"⟩, ⟨"q3", "a3"⟩, ⟨"q4", "a4"⟩]
    scores := ⟨0, 0, 0, 0, 0⟩ }

/-- C1: the code evaluated at the failing input.  `/continue-interview` moves
the session to `completed` when `questions.length >= 5` even though only 4
answers were received, and `generateNextQuestion` refuses to produce a
question for the same reason — both gates count questions asked, not answers
received, contradicting the documented termination rule
(CONTEXTUAL_QUESTIONS_AND_FEEDBACK.md: "AFTER (Correct): if
(responses.length >= 5)"). -/
theorem c1_completes_on_question_count_not_answer_count :
    staleSession.responses.length = 4 ∧
    (continueInterview staleSession false (some (sampleQuestion 6))).session.status = .completed ∧
    (continueInterview staleSession false (some (sampleQuestion 6))).response =
      .hangupMsg completionMessage ∧
    (generateNextQuestion staleSession (some (sampleQuestion 6))).1 = none := by
  decide

/-! ## C3 -/

/-- C3: on an active session below the cap, when the next-question race times
out the handler answers with a recording prompt carrying the pre-authored
fallback question text (not a hangup, not an error), spawns the real
generation in the background, and the response is the same whatever that
background generation later produces. -/
theorem c3_race_timeout_returns_fallback_recording (s : SessionState)
    (generated : Option Question) (_hactive : s.status = .active)
    (hcap : s.questions.length < 5) :
    (continueInterview s true generated).response =
      .recording fallbackQuestionMessage responseAction responseTimeoutAction ∧
    (∀ generated', (continueInterview s true generated').response =
      (continueInterview s true generated).response) ∧
    (continueInterview s true generated).backgroundGenerate = true ∧
    (∀ m, (continueInterview s true generated).response ≠ .hangupMsg m) ∧
    (∃ pre post, fallbackQuestionMessage =
      pre ++ "Tell me about a time when you demonstrated leadership" ++ post) := by
  have hns : ¬ 5 ≤ s.questions.length := by omega
  refine ⟨by simp [continueInterview, hns], ?_, by simp [continueInterview, hns],
    by simp [continueInterview, hns], ?_⟩
  · intro generated'
    simp [continueInterview, hns]
  · exact ⟨"Here\x27s your next question: ", ". Please provide your response.", by decide⟩

/-- Witness for C3: the race timing out on a one-question session. -/
theorem c3_witness :
    (continueInterview (addQuestion (newSession .mock_interview) (sampleQuestion 1))
        true (some (sampleQuestion 2))).response =
      .recording fallbackQuestionMessage responseAction responseTimeoutAction ∧
    (continueInterview (addQuestion (newSession .mock_interview) (sampleQuestion 1))
        true (some (sampleQuestion 2))).backgroundGenerate = true :=
  ⟨(c3_race_timeout_returns_fallback_recording _ _ (by decide) (by decide)).1,
   (c3_race_timeout_returns_fallback_recording _ _ (by decide) (by decide)).2.2.1⟩

/-! ## C4 -/

/-- The session obtained by asking two questions and processing two answers
whose analyses scored `overall` 40 and 80 respectively. -/
def twoAnswerSession : SessionState :=
  processTranscribedResponse
    (addQuestion
      (processTranscribedResponse
        (addQuestion (newSession .mock_interview) (sampleQuestion 1))
        "first answer" ⟨40, 40, 40, 40, 40⟩)
      (sampleQuestion 2))
    "second answer" ⟨80, 80, 80, 80, 80⟩

/-- C4: the code evaluated at the failing input.  After answers scored 40 and
80, the session's aggregate `overall` is 80 — the *last* analysis overwrites
the merged scores via the object spread, it is not the mean 60 — and
`endMockInterview` reports that 80.  The closing hangup text is a fixed
string containing no digits at all, so it cannot name any score, contradicting
the documented ending (CONTEXTUAL_QUESTIONS_AND_FEEDBACK.md: "You performed
excellently with a score of 86 out of 100!"). -/
theorem c4_final_score_is_last_not_mean :
    twoAnswerSession.scores.overall = 80 ∧
    (40 + 80) / 2 = 60 ∧
    (endMockInterview twoAnswerSession).2 = 80 ∧
    (continueInterview
        { twoAnswerSession with
          questions := twoAnswerSession.questions ++
            [sampleQuestion 3, sampleQuestion 4, sampleQuestion 5] }
        false none).response = .hangupMsg completionMessage ∧
    completionMessage.toList.all (fun c => !c.isDigit) = true := by
  decide

/-! ## Synthesis client stream protocol (murfaiService.js, generateAudioViaWebSocket) -/

/-- One WebSocket message from the synthesis backend: an optional base64
audio payload (modelled already decoded, as a byte list) and the
`final` flag. -/
structure Frame where
  audio : Option (List Nat)
  final : Bool
deriving DecidableEq, Repr

/-- The two hard failures of the synthesis client: the 10-second connection
timeout (`reject(new Error('WebSocket connection timeout'))`) and the
empty-close rejection (`reject(new Error('Connection closed without
receiving audio data'))`). -/
inductive SynthError where
  | connectTimeout
  | emptyStream
deriving DecidableEq, Repr

/-- How the promise returned by `generateAudioViaWebSocket` settles:
`resolved` with the concatenated audio, `rejected` with an error, or
`pending` when no handler ever calls resolve/reject (a promise that never
settles). -/
inductive WsOutcome where
  | resolved (audio : List Nat)
  | rejected (e : SynthError)
  | pending
deriving DecidableEq, Repr

/-- The `ws.on('message')` handler folded over the received frames, followed
by the `ws.on('close')` handler (the empty-list base case).  Per frame: an
audio payload is appended to `audioChunks` (the first chunk longer than 44
bytes has its WAV header stripped and clears `firstChunk`); then, if the
frame carries `final`, the promise resolves with the concatenation.  At
close, the promise is rejected if and only if no audio chunk was collected —
but a resolve that already happened wins, because a settled promise ignores
later reject calls. -/
def processFrames : List Frame → List (List Nat) → Bool → WsOutcome
  | [], chunks, _ =>
      if chunks.isEmpty then .rejected .emptyStream else .pending
  | f :: rest, chunks, firstChunk =>
      let step : List (List Nat) × Bool :=
        match f.audio with
        | some bytes =>
            if firstChunk ∧ 44 < bytes.length then (chunks ++ [bytes.drop 44], false)
            else (chunks ++ [bytes], firstChunk)
        | none => (chunks, firstChunk)
      if f.final then .resolved step.1.flatten
      else processFrames rest step.1 step.2

/-- The connection timeout of `generateAudioViaWebSocket` (10000 ms). -/
def connectTimeoutMs : Nat := 10000

/-- A completed run: how the promise settled and whether the socket ended up
closed (the timer handler calls `ws.close()` explicitly; every other path
ends with the stream closed as well). -/
structure WsRun where
  outcome : WsOutcome
  socketClosed : Bool
deriving DecidableEq, Repr

/-- Model of `generateAudioViaWebSocket` as a function of the timed frame sequence the
backend delivers (arrival time in ms, paired with the frame).  `receivedData`
is set by the first message, which also clears the connection timer; so the
timer fires exactly when no frame at all arrives before `connectTimeoutMs`,
closing the socket and rejecting.  Frames arriving after the timer fired are
ignored — the promise has already settled. -/
def generateAudioViaWebSocket (timedFrames : List (Nat × Frame)) : WsRun :=
  match timedFrames with
  | [] => ⟨.rejected .connectTimeout, true⟩
  | (t, _) :: _ =>
      if t < connectTimeoutMs then
        ⟨processFrames (timedFrames.map Prod.snd) [] true, true⟩
      else
        ⟨.rejected .connectTimeout, true⟩

/-- The close handler can only reject with the empty-stream error; the
connect-timeout rejection comes from the timer alone. -/
theorem processFrames_ne_connectTimeout (frames : List Frame)
    (chunks : List (List Nat)) (firstChunk : Bool) :
    processFrames frames chunks firstChunk ≠ .rejected .connectTimeout := by
  induction frames generalizing chunks firstChunk with
  | nil =>
      simp only [processFrames]
      split <;> simp
  | cons f rest ih =>
      simp only [processFrames]
      split
      · simp
      · exact ih _ _

/-! ## C5 -/

/-- C5 counterexample: a stream in which the backend sends a single
final-flag frame carrying no audio, then closes.  No audio-chunk frame was
ever received, yet the client resolves with a zero-byte artifact instead of
rejecting: the `final` handler runs `resolve(Buffer.concat([]))` before the
close handler's emptiness check, and a settled promise ignores the later
reject. -/
theorem c5_counterexample :
    ([((0 : Nat), Frame.mk none true)].all (fun p => p.2.audio.isNone)) = true ∧
    (generateAudioViaWebSocket [(0, Frame.mk none true)]).outcome = .resolved [] ∧
    ([] : List Nat).length = 0 := by
  decide

/-- C5 (amended): if no received frame carries audio *and no final-flag frame
arrives* before the connection closes, the synthesis client rejects with a
hard error (the connect timeout when nothing arrived at all, the empty-stream
error otherwise) and never resolves with any artifact. -/
theorem c5_empty_close_rejects (timedFrames : List (Nat × Frame))
    (hframes : ∀ p ∈ timedFrames, p.2.audio = none ∧ p.2.final = false) :
    (∃ e, (generateAudioViaWebSocket timedFrames).outcome = .rejected e) ∧
    (∀ a, (generateAudioViaWebSocket timedFrames).outcome ≠ .resolved a) := by
  have key : ∀ (frames : List Frame), (∀ f ∈ frames, f.audio = none ∧ f.final = false) →
      ∀ chunks firstChunk, processFrames frames chunks firstChunk =
        if chunks.isEmpty then .rejected .emptyStream else .pending := by
    intro frames hf
    induction frames with
    | nil => intro chunks firstChunk; rfl
    | cons f rest ih =>
        intro chunks firstChunk
        have hfa := (hf f (List.mem_cons_self f rest)).1
        have hff := (hf f (List.mem_cons_self f rest)).2
        simp only [processFrames, hfa, hff, if_neg Bool.false_ne_true]
        exact ih (fun g hg => hf g (List.mem_cons_of_mem f hg)) chunks firstChunk
  match timedFrames with
  | [] => exact ⟨⟨.connectTimeout, rfl⟩, by intro a; simp [generateAudioViaWebSocket]⟩
  | (t, f) :: rest =>
      have hall : ∀ g ∈ (((t, f) :: rest).map Prod.snd), g.audio = none ∧ g.final = false := by
        intro g hg
        rcases List.mem_map.mp hg with ⟨p, hp, rfl⟩
        exact hframes p hp
      by_cases ht : t < connectTimeoutMs
      · have houtcome : (generateAudioViaWebSocket ((t, f) :: rest)).outcome =
            .rejected .emptyStream := by
          simp only [generateAudioViaWebSocket, if_pos ht]
          rw [key _ hall [] true]
          rfl
        exact ⟨⟨.emptyStream, houtcome⟩, by intro a; rw [houtcome]; simp⟩
      · have houtcome : (generateAudioViaWebSocket ((t, f) :: rest)).outcome =
            .rejected .connectTimeout := by
          simp only [generateAudioViaWebSocket, if_neg ht]
        exact ⟨⟨.connectTimeout, houtcome⟩, by intro a; rw [houtcome]; simp⟩

/-- Witness for the amended C5: one non-final, audio-less frame at 5 ms, then
close — the client does not resolve, in particular not with an empty
artifact. -/
theorem c5_witness :
    (generateAudioViaWebSocket [(5, Frame.mk none false)]).outcome ≠ .resolved [] :=
  (c5_empty_close_rejects [(5, Frame.mk none false)] (by decide)).2 []

/-! ## C9 -/

/-- C9: a synthesis attempt whose connection produces no frames within the
10-second connect wait rejects with the hard connect-timeout error and the
socket is closed, rather than waiting indefinitely; and receipt of any frame
before the deadline disarms this timeout — the outcome is then decided
entirely by the frame stream and can never be the connect-timeout error. -/
theorem c9_connect_timeout (timedFrames : List (Nat × Frame)) :
    (timedFrames = [] →
      generateAudioViaWebSocket timedFrames = ⟨.rejected .connectTimeout, true⟩) ∧
    (∀ t f rest, timedFrames = (t, f) :: rest → connectTimeoutMs ≤ t →
      generateAudioViaWebSocket timedFrames = ⟨.rejected .connectTimeout, true⟩) ∧
    (∀ t f rest, timedFrames = (t, f) :: rest → t < connectTimeoutMs →
      (generateAudioViaWebSocket timedFrames).outcome =
        processFrames (timedFrames.map Prod.snd) [] true ∧
      (generateAudioViaWebSocket timedFrames).outcome ≠ .rejected .connectTimeout) := by
  refine ⟨?_, ?_, ?_⟩
  · rintro rfl; rfl
  · rintro t f rest rfl ht
    simp only [generateAudioViaWebSocket, if_neg (Nat.not_lt.mpr ht)]
  · rintro t f rest rfl ht
    constructor
    · simp only [generateAudioViaWebSocket, if_pos ht]
    · simp only [generateAudioViaWebSocket, if_pos ht]
      exact processFrames_ne_connectTimeout _ _ _

/-- Witness for C9: no frame at all rejects with the connect timeout; a first
frame at 12000 ms is too late and still rejects; a first frame at 500 ms
disarms the timer and the connect-timeout error becomes impossible. -/
theorem c9_witness :
    generateAudioViaWebSocket [] = ⟨.rejected .connectTimeout, true⟩ ∧
    generateAudioViaWebSocket [(12000, Frame.mk (some [1, 2]) true)] =
      ⟨.rejected .connectTimeout, true⟩ ∧
    (generateAudioViaWebSocket [(500, Frame.mk (some [1, 2]) true)]).outcome ≠
      .rejected .connectTimeout :=
  ⟨(c9_connect_timeout []).1 rfl,
   (c9_connect_timeout _).2.1 12000 (Frame.mk (some [1, 2]) true) [] rfl (by decide),
   ((c9_connect_timeout _).2.2 500 (Frame.mk (some [1, 2]) true) [] rfl (by decide)).2⟩

/-! ## Audio cache and textToSpeech (murfaiService.js) -/

/-- Model of `generateCacheKey(text, voiceId, pitch, speed)` hashes the string
`text-voiceId-pitch-speed` with sha-256 and keeps 16 hex characters.  The
digest is a pure function of that string; only its determinism is used by
the cache, so the hash is modelled as the pre-image string itself. -/
def generateCacheKey (text voiceId : String) (pitch speed : Int) : String :=
  text ++ "-" ++ voiceId ++ "-" ++ toString pitch ++ "-" ++ toString speed

/-- The on-disk audio cache directory: filenames mapped to byte contents.
Writes prepend, so rewriting a name shadows the old entry, matching
`fs.writeFile` overwrite semantics. -/
structure CacheFS where
  files : List (String × List Nat)
deriving DecidableEq, Repr

/-- Model of `fs.access` + `fs.readFile` for one filename. -/
def CacheFS.read (fs : CacheFS) (name : String) : Option (List Nat) :=
  fs.files.lookup name

/-- The object `textToSpeech` returns (`audioUrl`, `audioData`, `cacheKey`;
`getCachedAudio` additionally marks `cached: true`). -/
structure TTSResult where
  audioUrl : String
  audioData : List Nat
  cacheKey : String
  cached : Bool
deriving DecidableEq, Repr

/-- The public URL `saveAudioFile`/`getCachedAudio` derive from a filename. -/
def audioUrlFor (filename : String) : String :=
  "/audio/" ++ filename

/-- Model of `getCachedAudio(cacheKey)`: try `<key>.wav`, then `<key>.mp3`; a hit
returns the stored artifact with `cached: true`. -/
def getCachedAudio (fs : CacheFS) (cacheKey : String) : Option TTSResult :=
  match fs.read (cacheKey ++ ".wav") with
  | some data => some ⟨audioUrlFor (cacheKey ++ ".wav"), data, cacheKey, true⟩
  | none =>
      match fs.read (cacheKey ++ ".mp3") with
      | some data => some ⟨audioUrlFor (cacheKey ++ ".mp3"), data, cacheKey, true⟩
      | none => none

/-- Model of `saveAudioFile(audioData, cacheKey, 'WAV')`: write `<key>.wav` and return
its public URL. -/
def saveAudioFile (fs : CacheFS) (audioData : List Nat) (cacheKey : String) :
    CacheFS × String :=
  (⟨(cacheKey ++ ".wav", audioData) :: fs.files⟩, audioUrlFor (cacheKey ++ ".wav"))

/-- What `textToSpeech` can throw: the empty-text guard, the missing API key
guard, or a synthesis failure propagated from the WebSocket layer. -/
inductive TTSError where
  | textRequired
  | apiKeyMissing
  | synth (e : SynthError)
deriving DecidableEq, Repr

/-- One `textToSpeech` call: the thrown-or-returned result, the audio
directory afterwards, and whether a synthesis WebSocket stream was opened. -/
structure TTSCall where
  result : Except TTSError TTSResult
  fs : CacheFS
  synthOpened : Bool
deriving Repr

/-- The guard `!text || text.trim().length === 0` at the top of
`textToSpeech`: the text is rejected when it is empty or all whitespace. -/
def allWhitespace (text : String) : Bool :=
  text.toList.all Char.isWhitespace

/-- Model of `MurfAIService.textToSpeech(options)`: guard against empty text and a
missing API key, compute the cache key, return the cached artifact on a hit
(no stream opened), otherwise open a WebSocket stream (its outcome is the
`synth` argument), save the audio under the key and return it; a synthesis
error is rethrown. -/
def textToSpeech (fs : CacheFS) (apiKeyConfigured : Bool) (text voiceId : String)
    (pitch speed : Int) (useCache : Bool)
    (synth : Except SynthError (List Nat)) : TTSCall :=
  if allWhitespace text then ⟨.error .textRequired, fs, false⟩
  else if !apiKeyConfigured then ⟨.error .apiKeyMissing, fs, false⟩
  else
    let cacheKey := generateCacheKey text voiceId pitch speed
    match (if useCache then getCachedAudio fs cacheKey else none) with
    | some r => ⟨.ok r, fs, false⟩
    | none =>
        match synth with
        | .ok audioData =>
            let saved := saveAudioFile fs audioData cacheKey
            ⟨.ok ⟨saved.2, audioData, cacheKey, false⟩, saved.1, true⟩
        | .error e => ⟨.error (.synth e), fs, true⟩

/-- A cache hit always carries the queried key and the `cached` marker. -/
theorem getCachedAudio_spec (fs : CacheFS) (cacheKey : String) (r : TTSResult)
    (h : getCachedAudio fs cacheKey = some r) :
    r.cacheKey = cacheKey ∧ r.cached = true := by
  unfold getCachedAudio at h
  cases hwav : fs.read (cacheKey ++ ".wav") with
  | some data => rw [hwav] at h; cases h; exact ⟨rfl, rfl⟩
  | none =>
      rw [hwav] at h
      cases hmp3 : fs.read (cacheKey ++ ".mp3") with
      | some data => rw [hmp3] at h; cases h; exact ⟨rfl, rfl⟩
      | none => rw [hmp3] at h; cases h

/-! ## C7 -/

/-- C7: two `textToSpeech` calls with identical (text, voiceId, pitch, speed)
and caching enabled: whenever the first call returns a result, the second
call is a cache hit on the same deterministic fingerprint — it returns the
stored artifact marked `cached`, leaves the audio directory unchanged, and
does not open a second synthesis stream. -/
theorem c7_second_call_cache_hit
    (fs : CacheFS) (apiKeyConfigured : Bool) (text voiceId : String) (pitch speed : Int)
    (synth1 synth2 : Except SynthError (List Nat)) (r1 : TTSResult)
    (h1 : (textToSpeech fs apiKeyConfigured text voiceId pitch speed true synth1).result =
      .ok r1) :
    (textToSpeech (textToSpeech fs apiKeyConfigured text voiceId pitch speed true synth1).fs
        apiKeyConfigured text voiceId pitch speed true synth2).synthOpened = false ∧
    (textToSpeech (textToSpeech fs apiKeyConfigured text voiceId pitch speed true synth1).fs
        apiKeyConfigured text voiceId pitch speed true synth2).fs =
      (textToSpeech fs apiKeyConfigured text voiceId pitch speed true synth1).fs ∧
    ∃ r2, (textToSpeech (textToSpeech fs apiKeyConfigured text voiceId pitch speed true synth1).fs
        apiKeyConfigured text voiceId pitch speed true synth2).result = .ok r2 ∧
      r2.cached = true ∧ r2.cacheKey = r1.cacheKey := by
  by_cases htext : allWhitespace text
  · simp [textToSpeech, htext] at h1
  cases apiKeyConfigured with
  | false => simp [textToSpeech, htext] at h1
  | true =>
      cases hc : getCachedAudio fs (generateCacheKey text voiceId pitch speed) with
      | some r =>
          have hr : r = r1 := by simpa [textToSpeech, htext, hc] using h1
          subst hr
          refine ⟨?_, ?_, r, ?_, (getCachedAudio_spec _ _ _ hc).2, rfl⟩ <;>
            simp [textToSpeech, htext, hc]
      | none =>
          cases synth1 with
          | error e =>
              simp [textToSpeech, htext, hc] at h1
          | ok audioData =>
              have hr : r1 = ⟨audioUrlFor (generateCacheKey text voiceId pitch speed ++ ".wav"),
                  audioData, generateCacheKey text voiceId pitch speed, false⟩ := by
                have h1c := h1
                simp [textToSpeech, htext, hc, saveAudioFile] at h1c
                exact h1c.symm
              have e1 : textToSpeech fs true text voiceId pitch speed true (.ok audioData) =
                  ⟨.ok ⟨audioUrlFor (generateCacheKey text voiceId pitch speed ++ ".wav"),
                      audioData, generateCacheKey text voiceId pitch speed, false⟩,
                    ⟨(generateCacheKey text voiceId pitch speed ++ ".wav", audioData) ::
                      fs.files⟩, true⟩ := by
                simp [textToSpeech, htext, hc, saveAudioFile]
              have hhit : getCachedAudio
                  ⟨(generateCacheKey text voiceId pitch speed ++ ".wav", audioData) :: fs.files⟩
                  (generateCacheKey text voiceId pitch speed) =
                  some ⟨audioUrlFor (generateCacheKey text voiceId pitch speed ++ ".wav"),
                    audioData, generateCacheKey text voiceId pitch speed, true⟩ := by
                simp [getCachedAudio, CacheFS.read, List.lookup]
              have e2 : textToSpeech
                  (⟨(generateCacheKey text voiceId pitch speed ++ ".wav", audioData) ::
                    fs.files⟩ : CacheFS) true text voiceId pitch speed true synth2 =
                  ⟨.ok ⟨audioUrlFor (generateCacheKey text voiceId pitch speed ++ ".wav"),
                      audioData, generateCacheKey text voiceId pitch speed, true⟩,
                    ⟨(generateCacheKey text voiceId pitch speed ++ ".wav", audioData) ::
                      fs.files⟩, false⟩ := by
                simp [textToSpeech, htext, hhit]
              refine ⟨?_, ?_,
                ⟨audioUrlFor (generateCacheKey text voiceId pitch speed ++ ".wav"),
                  audioData, generateCacheKey text voiceId pitch speed, true⟩, ?_, rfl, ?_⟩ <;>
                simp [e1, e2, hr]

/-- Witness for C7: a fresh cache, a successful first synthesis of "Hello",
then a second identical request whose own synthesis outcome is irrelevant —
no second stream is opened, the directory is untouched, and the cached
artifact under the same fingerprint comes back. -/
theorem c7_witness :
    (textToSpeech (textToSpeech ⟨[]⟩ true "Hello" "en-US-natalie" 0 0 true
          (.ok [1, 2, 3])).fs
        true "Hello" "en-US-natalie" 0 0 true (.error .emptyStream)).synthOpened = false ∧
    (textToSpeech (textToSpeech ⟨[]⟩ true "Hello" "en-US-natalie" 0 0 true
          (.ok [1, 2, 3])).fs
        true "Hello" "en-US-natalie" 0 0 true (.error .emptyStream)).fs =
      (textToSpeech ⟨[]⟩ true "Hello" "en-US-natalie" 0 0 true (.ok [1, 2, 3])).fs ∧
    (textToSpeech (textToSpeech ⟨[]⟩ true "Hello" "en-US-natalie" 0 0 true
          (.ok [1, 2, 3])).fs
        true "Hello" "en-US-natalie" 0 0 true (.error .emptyStream)).result =
      .ok (TTSResult.mk "/audio/Hello-en-US-natalie-0-0.wav" [1, 2, 3]
        "Hello-en-US-natalie-0-0" true) := by
  refine ⟨(c7_second_call_cache_hit ⟨[]⟩ true "Hello" "en-US-natalie" 0 0
    (.ok [1, 2, 3]) (.error .emptyStream)
    (TTSResult.mk "/audio/Hello-en-US-natalie-0-0.wav" [1, 2, 3]
      "Hello-en-US-natalie-0-0" false) (by rfl)).1,
    (c7_second_call_cache_hit ⟨[]⟩ true "Hello" "en-US-natalie" 0 0
    (.ok [1, 2, 3]) (.error .emptyStream)
    (TTSResult.mk "/audio/Hello-en-US-natalie-0-0.wav" [1, 2, 3]
      "Hello-en-US-natalie-0-0" false) (by rfl)).2.1, ?_⟩
  rfl

/-! ## Batch synthesis (murfaiService.js, batchTextToSpeech) -/

/-- Model of `MurfAIService.batchTextToSpeech(textArray, options)`: the texts are
processed in slices of `concurrencyLimit = 3`; inside a slice each text's
`textToSpeech` call carries its own `.catch(err => null)`, so one failure
yields `null` for that text only, and the non-null results of the slice are
appended before the next slice starts.  The per-text call is abstracted as
`synthOne`; `Except.toOption` is the `.catch -> null` wrapper, and the
final list is the filtered (non-null) results in order. -/
def batchTextToSpeech (synthOne : String → Except SynthError (List Nat)) :
    List String → List (List Nat)
  | [] => []
  | [a] => [a].filterMap (fun t => (synthOne t).toOption)
  | [a, b] => [a, b].filterMap (fun t => (synthOne t).toOption)
  | a :: b :: c :: rest =>
      ([a, b, c].filterMap (fun t => (synthOne t).toOption)) ++
        batchTextToSpeech synthOne rest

/-- The first five entries of the `commonMessages` warm-up list of
`preGenerateCommonMessages`. -/
def warmupPhrases : List String :=
  ["Welcome to AI Interview Coaching. I\x27m your personal interview coach.",
   "Thank you for that answer.",
   "Thank you for that answer. Please hold while I prepare your next question.",
   "Here\x27s your next question.",
   "Please provide your response."]

/-! ## C8 -/

/-- C8: the batch synthesis operation equals, slice structure and all, the
per-text results with the failures dropped — a failure on one text never
aborts the remaining batch, every other text is still processed, and the
returned list contains exactly the successful results in order; when every
individual call succeeds the batch completes with one result per input text
and zero failures. -/
theorem c8_batch_isolates_failures (synthOne : String → Except SynthError (List Nat))
    (texts : List String) :
    batchTextToSpeech synthOne texts =
      texts.filterMap (fun t => (synthOne t).toOption) ∧
    ((∀ t ∈ texts, ∃ a, synthOne t = .ok a) →
      (batchTextToSpeech synthOne texts).length = texts.length) := by
  have main : ∀ n (l : List String), l.length ≤ n →
      batchTextToSpeech synthOne l = l.filterMap (fun t => (synthOne t).toOption) := by
    intro n
    induction n with
    | zero =>
        intro l hl
        have : l = [] := List.eq_nil_of_length_eq_zero (Nat.le_zero.mp hl)
        subst this
        rfl
    | succ n ih =>
        intro l hl
        match l with
        | [] => rfl
        | [a] => rfl
        | [a, b] => rfl
        | a :: b :: c :: rest =>
            have hr : rest.length ≤ n := by
              simp only [List.length_cons] at hl
              omega
            conv_rhs => rw [show a :: b :: c :: rest = [a, b, c] ++ rest from rfl,
              List.filterMap_append]
            simp only [batchTextToSpeech, ih rest hr]
  have allSome : ∀ (l : List String), (∀ t ∈ l, ∃ a, synthOne t = .ok a) →
      (l.filterMap (fun t => (synthOne t).toOption)).length = l.length := by
    intro l
    induction l with
    | nil => intro _; rfl
    | cons a as ih =>
        intro hl
        obtain ⟨v, hv⟩ := hl a (List.mem_cons_self a as)
        have hok : (synthOne a).toOption = some v := by rw [hv]; rfl
        simp only [List.filterMap_cons, hok, List.length_cons]
        rw [ih (fun t ht => hl t (List.mem_cons_of_mem a ht))]
  exact ⟨main texts.length texts le_rfl,
    fun h => by rw [main texts.length texts le_rfl]; exact allSome texts h⟩

/-- A batch synthesis backend for the witness: it fails on the text "bad"
and succeeds, returning a one-byte artifact, on everything else. -/
def witnessSynth (t : String) : Except SynthError (List Nat) :=
  if t = "bad" then .error .emptyStream else .ok [7]

/-- Witness for C8: a failure in mid-batch drops only that text, and the
all-success warm-up of the five common phrases returns 5 results for 5
inputs. -/
theorem c8_witness :
    batchTextToSpeech witnessSynth ["a", "bad", "c", "d"] = [[7], [7], [7]] ∧
    (batchTextToSpeech (fun _ => .ok [7]) warmupPhrases).length = warmupPhrases.length := by
  constructor
  · rw [(c8_batch_isolates_failures witnessSynth ["a", "bad", "c", "d"]).1]
    decide
  · exact (c8_batch_isolates_failures (fun _ => .ok [7]) warmupPhrases).2
      (fun t _ => ⟨[7], rfl⟩)

/-! ## Prompt renderer (twilioService.js) -/

/-- One TwiML verb of the outbound telephony document: speak text with the
transport's built-in voice, play an audio URL, the same nested inside a
`gather`, a `record` directive, or `hangup`. -/
inductive TwimlVerb where
  | say (text : String)
  | play (url : String)
  | gatherSay (action : String) (text : String)
  | gatherPlay (action : String) (url : String)
  | record (action : Option String) (timeoutAction : Option String)
  | hangup
deriving DecidableEq, Repr

/-- A TwiML document is the ordered list of its verbs. -/
abbrev Twiml := List TwimlVerb

/-- Model of `TwilioService.addFallbackTTS`: speak the message with Twilio's built-in
`say`, nested in a `gather` when an action is present. -/
def addFallbackTTS (message : String) (action : Option String) : Twiml :=
  match action with
  | some a => [.gatherSay a message]
  | none => [.say message]

/-- Model of `TwilioService.generateTwiMLResponse` with MurfAI enabled: try
`murfaiService.generateAudioUrl(message)` (outcome passed as `synth`); on
success `play` the URL (inside a `gather` when an action is present); on any
synthesis error fall back to `addFallbackTTS`.  The catch swallows the
error, so the function always returns a document. -/
def generateTwiMLResponse (message : String) (action : Option String)
    (synth : Except SynthError String) : Twiml :=
  match synth with
  | .ok url =>
      match action with
      | some a => [.gatherPlay a url]
      | none => [.play url]
  | .error _ => addFallbackTTS message action

/-- Model of `TwilioService.generateRecordingTwiML`: play the synthesized message or
`say` it on synthesis failure, then append the `record` directive with its
action and timeout-action endpoints. -/
def generateRecordingTwiML (message : String) (action timeoutAction : Option String)
    (synth : Except SynthError String) : Twiml :=
  (match synth with
   | .ok url => [.play url]
   | .error _ => [.say message]) ++ [.record action timeoutAction]

/-- Model of `TwilioService.generateHangupTwiML`: play the synthesized message or
`say` it on synthesis failure, then `hangup`. -/
def generateHangupTwiML (message : String) (synth : Except SynthError String) : Twiml :=
  (match synth with
   | .ok url => [.play url]
   | .error _ => [.say message]) ++ [.hangup]

/-! ## C6 -/

/-- C6: for every prompt render, on any synthesis error the returned document
speaks the same message text via the transport's built-in `say`, with the
gather/record/hangup structure preserved, and the render function returns a
document rather than propagating the synthesis exception (all three
renderers are total into `Twiml`, with the failure branch shown explicitly
for every failure reason). -/
theorem c6_synthesis_failure_falls_back_to_say (message : String)
    (action timeoutAction : Option String) (e : SynthError) :
    (generateTwiMLResponse message action (.error e) =
      match action with
      | some a => [.gatherSay a message]
      | none => [.say message]) ∧
    generateRecordingTwiML message action timeoutAction (.error e) =
      [.say message, .record action timeoutAction] ∧
    generateHangupTwiML message (.error e) = [.say message, .hangup] := by
  refine ⟨?_, rfl, rfl⟩
  cases action <;> rfl

/-! ## Audio artifact retrieval (routes/audio.js) -/

/-- A character admitted by the stem of the filename validation regex
`^[a-zA-Z0-9-_]+\.(mp3|wav)$`. -/
def isStemChar (c : Char) : Bool :=
  c.isAlpha || c.isDigit || c == '-' || c == '_'

/-- Model of `filename.match(/^[a-zA-Z0-9-_]+\.(mp3|wav)$/)` on the filename's
characters: a non-empty run of stem characters followed by exactly `.mp3` or
`.wav`.  Since `.` is not a stem character, the greedy stem is the unique
candidate match, so this equals the regex test. -/
def validAudioFilename (cs : List Char) : Bool :=
  let stem := cs.takeWhile isStemChar
  let rest := cs.dropWhile isStemChar
  !stem.isEmpty && (rest = ['.', 'm', 'p', '3'] || rest = ['.', 'w', 'a', 'v'])

/-- The handler's possible responses: 400 before any filesystem access, 404,
500 for an empty file, or serving the file. -/
inductive AudioGetResponse where
  | badRequest
  | notFound
  | emptyFile
  | serveFile (path : List Char) (size : Nat)
deriving DecidableEq, Repr

/-- A run of the handler: the response plus every filesystem path it
touched (`fs.existsSync` / `fs.statSync` / `res.sendFile`). -/
structure AudioGetRun where
  response : AudioGetResponse
  accessedPaths : List (List Char)
deriving DecidableEq, Repr

/-- The audio directory the handler joins filenames onto. -/
def audioDir : List Char := ['t', 'e', 'm', 'p', '/', 'a', 'u', 'd', 'i', 'o']

/-- Model of `router.get('/:filename')` from routes/audio.js: reject invalid
filenames with 400 before touching the filesystem; otherwise stat
`audioDir/filename` (`fsSize` models the filesystem: `none` = absent,
`some n` = a file of `n` bytes), answer 404 when absent, 500 when empty,
and serve the file otherwise. -/
def handleAudioGet (fsSize : List Char → Option Nat) (filename : List Char) :
    AudioGetRun :=
  if validAudioFilename filename then
    let filepath := audioDir ++ '/' :: filename
    match fsSize filepath with
    | none => ⟨.notFound, [filepath]⟩
    | some 0 => ⟨.emptyFile, [filepath]⟩
    | some (n + 1) => ⟨.serveFile filepath (n + 1), [filepath]⟩
  else
    ⟨.badRequest, []⟩

/-- A valid filename consists of stem characters and one of the two literal
extensions, so it can never contain a path separator. -/
theorem validAudioFilename_no_separator (cs : List Char)
    (h : validAudioFilename cs = true) :
    ∀ c ∈ cs, c ≠ '/' ∧ c ≠ '\\' := by
  intro c hc
  unfold validAudioFilename at h
  simp only [Bool.and_eq_true, Bool.or_eq_true, Bool.not_eq_true', List.isEmpty_eq_false,
    decide_eq_true_eq] at h
  obtain ⟨-, hrest⟩ := h
  rw [← List.takeWhile_append_dropWhile (p := isStemChar) (l := cs)] at hc
  rcases List.mem_append.mp hc with hstem | hdrop
  · have hchar : isStemChar c = true := List.mem_takeWhile_imp hstem
    constructor <;> rintro rfl <;> simp [isStemChar] at hchar
  · rcases hrest with hrest | hrest <;> rw [hrest] at hdrop <;>
      simp only [List.mem_cons, List.not_mem_nil, or_false] at hdrop <;>
      rcases hdrop with rfl | rfl | rfl | rfl <;> exact ⟨by decide, by decide⟩

/-! ## C10 -/

/-- C10: a GET to the audio retrieval endpoint whose filename does not match
`^[a-zA-Z0-9-_]+\.(mp3|wav)$` is answered 400 before any filesystem access;
every path the handler ever reads is `audioDir/filename` for a filename that
matched the pattern, and such a filename contains no `/` or `\` and is
neither `.` nor `..`, so only plain fingerprint-named `.mp3`/`.wav` files
directly inside the audio directory can ever be served. -/
theorem c10_filename_validation_guards_fs (fsSize : List Char → Option Nat)
    (filename : List Char) :
    (validAudioFilename filename = false →
      handleAudioGet fsSize filename = ⟨.badRequest, []⟩) ∧
    (∀ p ∈ (handleAudioGet fsSize filename).accessedPaths,
      p = audioDir ++ '/' :: filename ∧
      validAudioFilename filename = true ∧
      (∀ c ∈ filename, c ≠ '/' ∧ c ≠ '\\') ∧
      filename ≠ ['.'] ∧ filename ≠ ['.', '.']) := by
  constructor
  · intro hinvalid
    simp [handleAudioGet, hinvalid]
  · intro p hp
    by_cases hvalid : validAudioFilename filename
    · have hpath : p = audioDir ++ '/' :: filename := by
        simp only [handleAudioGet, if_pos hvalid] at hp
        rcases hs : fsSize (audioDir ++ '/' :: filename) with - | n
        · rw [hs] at hp; simpa using hp
        · cases n with
          | zero => rw [hs] at hp; simpa using hp
          | succ m => rw [hs] at hp; simpa using hp
      refine ⟨hpath, hvalid, validAudioFilename_no_separator filename hvalid, ?_, ?_⟩
      · rintro rfl; exact absurd hvalid (by decide)
      · rintro rfl; exact absurd hvalid (by decide)
    · rw [Bool.not_eq_true] at hvalid
      simp [handleAudioGet, hvalid] at hp

/-- Witness for C10: a traversal attempt `../secrets.wav` is rejected with
400 and no filesystem access, while the valid name `a1b2.wav` is looked up
only at `temp/audio/a1b2.wav`, a separator-free location inside the audio
directory. -/
theorem c10_witness :
    handleAudioGet (fun _ => some 9)
        ['.', '.', '/', 's', 'e', 'c', 'r', 'e', 't', 's', '.', 'w', 'a', 'v'] =
      ⟨.badRequest, []⟩ ∧
    audioDir ++ '/' :: ['a', '1', 'b', '2', '.', 'w', 'a', 'v'] =
      audioDir ++ '/' :: ['a', '1', 'b', '2', '.', 'w', 'a', 'v'] ∧
    ('a' ≠ '/' ∧ 'a' ≠ '\\') :=
  ⟨(c10_filename_validation_guards_fs (fun _ => some 9)
      ['.', '.', '/', 's', 'e', 'c', 'r', 'e', 't', 's', '.', 'w', 'a', 'v']).1 (by decide),
   ((c10_filename_validation_guards_fs (fun _ => some 9)
      ['a', '1', 'b', '2', '.', 'w', 'a', 'v']).2
      (audioDir ++ '/' :: ['a', '1', 'b', '2', '.', 'w', 'a', 'v']) (by decide)).1,
   (((c10_filename_validation_guards_fs (fun _ => some 9)
      ['a', '1', 'b', '2', '.', 'w', 'a', 'v']).2
      (audioDir ++ '/' :: ['a', '1', 'b', '2', '.', 'w', 'a', 'v']) (by decide)).2.2.1)
     'a' (by decide)⟩

end IVR

